import Mathlib

/-!
Shallow embedding of the motor-efficiency analysis pipeline
(`src/unified_calculator.py`, `src/factor_calculator.py`).

Numeric values are modelled as real numbers; a cell of the CSV sample
table is `Option ℝ`, with `none` standing for a value that
`pd.to_numeric(..., errors=coerce)` turns into NaN.  Python dictionaries
of calibration parameters are modelled extensionally as lookup
functions `String → Option ℝ`.
-/

namespace Motor

/-- One row of the sample table: the parsed cells of a CSV line. -/
abbrev Row := List (Option ℝ)

/-- A sample table (`pandas.DataFrame` read with `header=None, skiprows=1`). -/
abbrev Table := List Row

/-- `df.shape[1]`: number of columns of the table (width of the widest row). -/
def ncols (t : Table) : ℕ :=
  t.foldr (fun r m => max r.length m) 0

/-- `df.iloc[:, j]` followed by `pd.to_numeric(..., errors=coerce)`:
column `j` of the table, a missing cell behaving like NaN. -/
def column (t : Table) (j : ℕ) : List (Option ℝ) :=
  t.map (fun row => (row.get? j).getD none)

/-- `df.head(n)` guarded by `points_to_process is not None and points_to_process > 0`
(lines 42-45 of unified_calculator.py). -/
def truncate (t : Table) : Option ℤ → Table
  | some n => if 0 < n then t.take n.toNat else t
  | none => t

/-- `output_i = (output_v - initial_v) / reference_v` applied cellwise to
column 2 (AIN2); NaN cells propagate (lines 60-62 of unified_calculator.py). -/
noncomputable def currentSeries (t : Table) (initial_v reference_v : ℝ) :
    List (Option ℝ) :=
  (column t 2).map (Option.map (fun v => (v - initial_v) / reference_v))

/-- `time_array = np.arange(n) * time_once` (line 53 of unified_calculator.py):
the synthetic time axis over the unfiltered row indices. -/
noncomputable def timeArray (n : ℕ) (time_once : ℝ) : List ℝ :=
  (List.range n).map (fun k : ℕ => (k : ℝ) * time_once)

/-- The rows surviving `valid_idx = ~np.isnan(output_i) & ~np.isnan(time_array)`
(line 66): the current cell paired with its synthetic time, filtered to the
parseable cells (the time axis itself is never NaN in the real model). -/
noncomputable def validPairs (t : Table) (initial_v reference_v time_once : ℝ) :
    List (Option ℝ × ℝ) :=
  ((currentSeries t initial_v reference_v).zip
    (timeArray t.length time_once)).filter (fun p => p.1.isSome)

/-- `output_i_cleaned = output_i[valid_idx]` (line 71). -/
noncomputable def cleanedCurrent (t : Table) (initial_v reference_v time_once : ℝ) :
    List ℝ :=
  (validPairs t initial_v reference_v time_once).filterMap Prod.fst

/-- `time_cleaned = time_array[valid_idx]` (line 72). -/
noncomputable def cleanedTime (t : Table) (initial_v reference_v time_once : ℝ) :
    List ℝ :=
  (validPairs t initial_v reference_v time_once).map Prod.snd

/-- `np.trapz(y, x)`: the composite trapezoidal rule
`Σ (x[k+1] - x[k]) * (y[k] + y[k+1]) / 2`. -/
noncomputable def trapz : List ℝ → List ℝ → ℝ
  | y1 :: y2 :: ys, x1 :: x2 :: xs => (x2 - x1) * (y1 + y2) / 2 + trapz (y2 :: ys) (x2 :: xs)
  | _, _ => 0

/-- `np.mean` of a list (empty case unreachable where used). -/
noncomputable def listMean (l : List ℝ) : ℝ := l.sum / l.length

/-- `np.max` of a list (empty case unreachable where used). -/
noncomputable def listMax : List ℝ → ℝ
  | [] => 0
  | x :: xs => xs.foldl max x

/-- The aligned `plot_data` triple of the verification method. -/
structure PlotData where
  time : List ℝ
  current : List ℝ
  power : List ℝ

/-- Zero-initialized plot data: `np.array([])` for each field. -/
def emptyPlot : PlotData := ⟨[], [], []⟩

/-- Return value of `calculate_simple_efficiency` (lines 101-113). -/
structure SimpleResult where
  efficiency : ℝ
  avg_output_power : ℝ
  max_output_power : ℝ
  output_energy : ℝ
  input_energy : ℝ
  duration : ℝ
  plot_data : PlotData

/-- `calculate_simple_efficiency` (unified_calculator.py lines 28-117), with
the already-parsed sample table in place of the file path; `none` models the
`return None` paths. -/
noncomputable def calculate_simple_efficiency (t : Table)
    (reference_v initial_v r_load power_input sampling_freq : ℝ)
    (points_to_process : Option ℤ) : Option SimpleResult :=
  let time_once := 1 / sampling_freq
  let data_df := truncate t points_to_process
  if data_df = [] ∨ ncols data_df < 3 then none
  else
    let output_i_cleaned := cleanedCurrent data_df initial_v reference_v time_once
    let time_cleaned := cleanedTime data_df initial_v reference_v time_once
    if output_i_cleaned = [] then none
    else if output_i_cleaned.length < 2 then none
    else
      let output_power := output_i_cleaned.map (fun i => i ^ 2 * r_load)
      let output_energy := trapz output_power time_cleaned
      let input_duration := (time_cleaned.length : ℝ) * time_once
      let input_energy := power_input * input_duration
      some ⟨if 0 < input_energy then output_energy / input_energy else 0,
            listMean output_power, listMax output_power,
            output_energy, input_energy, input_duration,
            ⟨time_cleaned, output_i_cleaned, output_power⟩⟩

/-- The dual-polarity combiner, `(max(0, a) * max(0, b)) ** 0.5`
(unified_calculator.py lines 307-309; factor_calculator.py lines 118-120). -/
noncomputable def combineEfficiencies (a b : ℝ) : ℝ :=
  Real.sqrt (max 0 a * max 0 b)

/-- Cellwise current decoding of an arbitrary column `j`
(used with `j = 2` for AIN2, `j = 6` and `j = 7` for the theoretical pair). -/
noncomputable def currentSeriesAt (t : Table) (j : ℕ) (initial_v reference_v : ℝ) :
    List (Option ℝ) :=
  (column t j).map (Option.map (fun v => (v - initial_v) / reference_v))

/-- Per-column statistics; `none` models NaN. -/
structure ColStats where
  max : Option ℝ
  min : Option ℝ
  avg : Option ℝ

/-- `_calculate_column_stats` (unified_calculator.py lines 17-26): max, min and
mean of the parseable cells; all-NaN columns yield NaN statistics (`none`). -/
noncomputable def colStats (col : List (Option ℝ)) : ColStats :=
  match col.filterMap id with
  | [] => ⟨none, none, none⟩
  | x :: xs => ⟨some (xs.foldl max x), some (xs.foldl min x),
      some ((x :: xs).sum / ((x :: xs).length : ℝ))⟩

/-- `channel_names` (unified_calculator.py line 159). -/
def channel_names : List String :=
  ["AIN1", "AIN2", "AIN3", "AIN4", "AIN5", "AIN6", "AIN7", "AIN8"]

/-- The per-channel statistics loop (unified_calculator.py lines 160-166):
channels beyond the table width get NaN statistics. -/
noncomputable def statsBlock (df : Table) : List (String × ColStats) :=
  channel_names.enum.map (fun p =>
    (p.2, if p.1 + 1 < ncols df then colStats (column df (p.1 + 1))
          else ⟨none, none, none⟩))

/-- The theoretical methodology plot arrays (unified_calculator.py line 133). -/
structure TheoPlot where
  time : List ℝ
  output_current : List ℝ
  input_current : List ℝ
  output_power : List ℝ
  input_power : List ℝ

/-- Zero-initialized theoretical plot data. -/
def emptyTheoPlot : TheoPlot := ⟨[], [], [], [], []⟩

/-- The rows where both the output (column 6) and input (column 7) currents
parse: `valid_idx_theo = ~isnan(out) & ~isnan(in) & ~isnan(time)`
(unified_calculator.py line 209). -/
noncomputable def theoTriples (df : Table) (initial_v reference_v time_once : ℝ) :
    List (Option ℝ × Option ℝ × ℝ) :=
  ((currentSeriesAt df 6 initial_v reference_v).zip
    ((currentSeriesAt df 7 initial_v reference_v).zip
      (timeArray df.length time_once))).filter
    (fun p => p.1.isSome && p.2.1.isSome)

/-- `output_i_theo_cleaned` (unified_calculator.py line 212). -/
noncomputable def theoOutCleaned (df : Table) (initial_v reference_v time_once : ℝ) :
    List ℝ :=
  (theoTriples df initial_v reference_v time_once).filterMap (fun p => p.1)

/-- `input_i_theo_cleaned` (unified_calculator.py line 213). -/
noncomputable def theoInCleaned (df : Table) (initial_v reference_v time_once : ℝ) :
    List ℝ :=
  (theoTriples df initial_v reference_v time_once).filterMap (fun p => p.2.1)

/-- `time_theo_cleaned` (unified_calculator.py line 214). -/
noncomputable def theoTimeCleaned (df : Table) (initial_v reference_v time_once : ℝ) :
    List ℝ :=
  (theoTriples df initial_v reference_v time_once).map (fun p => p.2.2)

/-- The verification-methodology block of `calculate_unified_efficiencies`
(lines 173-199 for zheng, 252-274 for fan): produces the efficiency and the
plot triple, leaving the zero-initialized defaults when the column is missing,
no sample is valid, fewer than 2 samples survive, or input energy is not
positive. -/
noncomputable def verBranch (df : Table)
    (reference_v initial_v r_load power_input time_once : ℝ) : ℝ × PlotData :=
  if 2 < ncols df then
    let ic := cleanedCurrent df initial_v reference_v time_once
    let tc := cleanedTime df initial_v reference_v time_once
    if ic = [] then (0, emptyPlot)
    else if ic.length < 2 then (0, emptyPlot)
    else
      let pw := ic.map (fun i => i ^ 2 * r_load)
      let oe := trapz pw tc
      let ie := power_input * ((tc.length : ℝ) * time_once)
      (if 0 < ie then oe / ie else 0, ⟨tc, ic, pw⟩)
  else (0, emptyPlot)

/-- The theoretical-methodology block of `calculate_unified_efficiencies`
(lines 202-230 for zheng, 276-304 for fan), producing the raw integrated
ratio (before the square-root post-processing) and the plot arrays. -/
noncomputable def theoBranch (df : Table)
    (reference_v initial_v r_load drive_v time_once : ℝ) : ℝ × TheoPlot :=
  if 7 < ncols df then
    let oc := theoOutCleaned df initial_v reference_v time_once
    let ic := theoInCleaned df initial_v reference_v time_once
    let tc := theoTimeCleaned df initial_v reference_v time_once
    if oc = [] then (0, emptyTheoPlot)
    else if oc.length < 2 then (0, emptyTheoPlot)
    else
      let op := oc.map (fun i => i ^ 2 * r_load)
      let ip := ic.map (fun i => drive_v * i)
      let num := trapz op tc
      let den := trapz ip tc
      (if 0 < den then num / den else 0, ⟨tc, oc, ic, op, ip⟩)
  else (0, emptyTheoPlot)

/-- A per-polarity verification sub-result. -/
structure VerPolar where
  efficiency : ℝ
  stats : List (String × ColStats)
  plot_data : PlotData

/-- A per-polarity theoretical sub-result. -/
structure TheoPolar where
  efficiency : ℝ
  stats : List (String × ColStats)
  plot_data : TheoPlot

/-- The `results["verification"]` section. -/
structure VerSection where
  zheng : VerPolar
  fan : VerPolar
  finished_efficiency : ℝ

/-- The `results["theoretical"]` section. -/
structure TheoSection where
  zheng : TheoPolar
  fan : TheoPolar
  finished_efficiency : ℝ

/-- The `results["comparison"]` section. -/
structure ComparisonSection where
  zheng_diff : ℝ
  fan_diff : ℝ
  finished_diff : ℝ

/-- The full results dictionary of `calculate_unified_efficiencies`. -/
structure UnifiedResults where
  verification : VerSection
  theoretical : TheoSection
  comparison : ComparisonSection

/-- Post-processing of the raw theoretical ratios (unified_calculator.py
lines 311-323): returns (zheng efficiency, fan efficiency, finished
efficiency) as stored back into the results dictionary. -/
noncomputable def theoPostprocess (e_z e_f : ℝ) : ℝ × ℝ × ℝ :=
  let pz := Real.sqrt (max 0 e_z) * 100
  let pf := Real.sqrt (max 0 e_f) * 100
  (pz / 100, pf / 100,
    if 0 ≤ pz ∧ 0 ≤ pf then Real.sqrt (pz * pf / 10000) else 0)

/-- `calculate_unified_efficiencies` (unified_calculator.py lines 119-342),
with the two already-parsed sample tables in place of the file paths.
An empty (after truncation) zheng table returns `None` (lines 154-156); an
empty fan table merely leaves all fan fields at their zero-initialized
defaults (line 239). -/
noncomputable def calculate_unified_efficiencies (t_zheng t_fan : Table)
    (reference_v initial_v r_load drive_v power_input sampling_freq : ℝ)
    (pointsZheng pointsFan : Option ℤ) : Option UnifiedResults :=
  let time_once := 1 / sampling_freq
  let dz := truncate t_zheng pointsZheng
  if dz = [] then none
  else
    let zStats := statsBlock dz
    let zVer := verBranch dz reference_v initial_v r_load power_input time_once
    let zTheo := theoBranch dz reference_v initial_v r_load drive_v time_once
    let df := truncate t_fan pointsFan
    let fStats := if df = [] then [] else statsBlock df
    let fVer := if df = [] then (0, emptyPlot)
      else verBranch df reference_v initial_v r_load power_input time_once
    let fTheo := if df = [] then (0, emptyTheoPlot)
      else theoBranch df reference_v initial_v r_load drive_v time_once
    let finishedVer := combineEfficiencies zVer.1 fVer.1
    let post := theoPostprocess zTheo.1 fTheo.1
    some ⟨⟨⟨zVer.1, zStats, zVer.2⟩, ⟨fVer.1, fStats, fVer.2⟩, finishedVer⟩,
          ⟨⟨post.1, zStats, zTheo.2⟩, ⟨post.2.1, fStats, fTheo.2⟩, post.2.2⟩,
          ⟨|post.1 - zVer.1|, |post.2.1 - fVer.1|, |post.2.2 - finishedVer|⟩⟩

/-- Return value of `calculate_single_efficiency`
(factor_calculator.py lines 41-52). -/
structure SingleResult where
  efficiency : ℝ
  avg_output_power : ℝ
  max_output_power : ℝ
  avg_output_current : ℝ
  duration : ℝ
  plot_data : PlotData

/-- `calculate_single_efficiency` (factor_calculator.py lines 5-56); unlike
`calculate_simple_efficiency` it has no minimum-sample-count guard. -/
noncomputable def calculate_single_efficiency (t : Table)
    (reference_v initial_v r_load power_input sampling_freq : ℝ)
    (points_to_process : Option ℤ) : Option SingleResult :=
  let data_df := truncate t points_to_process
  if data_df = [] ∨ ncols data_df < 3 then none
  else
    let time_once := 1 / sampling_freq
    let ic := cleanedCurrent data_df initial_v reference_v time_once
    let tc := cleanedTime data_df initial_v reference_v time_once
    if ic = [] then none
    else
      let pw := ic.map (fun i => i ^ 2 * r_load)
      let oe := trapz pw tc
      let ie := power_input * ((tc.length : ℝ) * time_once)
      some ⟨if 0 < ie then oe / ie else 0, listMean pw, listMax pw, listMean ic,
            (tc.length : ℝ) * time_once, ⟨tc, ic, pw⟩⟩

/-- `compare_dual_motor_efficiencies` (factor_calculator.py lines 103-123):
combines the two polarity efficiencies when both computations succeed,
returning `0.0` otherwise. -/
noncomputable def compare_dual_motor_efficiencies (zheng_t fan_t : Table)
    (reference_v initial_v r_load power_input sampling_freq : ℝ) : ℝ :=
  match calculate_single_efficiency zheng_t reference_v initial_v r_load
          power_input sampling_freq none,
        calculate_single_efficiency fan_t reference_v initial_v r_load
          power_input sampling_freq none with
  | some zr, some fr => combineEfficiencies zr.efficiency fr.efficiency
  | _, _ => 0

/-- A Python parameter dictionary, modelled extensionally as a lookup
function (all values in this program are numeric). -/
def Params : Type := String → Option ℝ

/-- `base.copy()` followed by `.update(extra)`: keys of `extra` win. -/
def Params.update (base extra : Params) : Params :=
  fun k => match extra k with
  | some v => some v
  | none => base k

/-- The empty dictionary. -/
def emptyParams : Params := fun _ => none

/-- `ExperimentConfig` (unified_calculator.py lines 346-358). -/
structure ExperimentConfig where
  exploration_type : Option String
  fixed_params : Params
  variable_params : List Params
  common_params : Params
  is_factor_exploration_mode : Bool

/-- Python list subscripting with an `int` index: non-negative indices count
from the front, negative indices from the back, anything else raises
`IndexError` (`none`). -/
def pyListGet {α : Type} (xs : List α) (i : ℤ) : Option α :=
  if 0 ≤ i then xs.get? i.toNat
  else if 0 ≤ i + xs.length then xs.get? (i + xs.length).toNat
  else none

/-- `ExperimentConfig.get_experiment_params` (unified_calculator.py lines
396-405): explicit `IndexError` when `index >= len(variable_params)`,
otherwise `common_params.copy()` updated with `fixed_params` then with
`variable_params[index]` (Python subscripting, so negative indices resolve
from the back). -/
def get_experiment_params (cfg : ExperimentConfig) (index : ℤ) :
    Except String Params :=
  if (cfg.variable_params.length : ℤ) ≤ index then
    Except.error "IndexError: experiment group index out of range"
  else
    match pyListGet cfg.variable_params index with
    | some vp => Except.ok ((cfg.common_params.update cfg.fixed_params).update vp)
    | none => Except.error "IndexError: list index out of range"

/-- Specification-side characterization for C2: the original (pre-filter) row
indices whose AIN2 cell parses as numeric. -/
def validRowIdx (t : Table) : List ℕ :=
  ((column t 2).enum.filter (fun p => p.2.isSome)).map Prod.fst

end Motor

namespace Motor

theorem trapz_cons2 (y1 y2 x1 x2 : ℝ) (ys xs : List ℝ) :
    trapz (y1 :: y2 :: ys) (x1 :: x2 :: xs) =
      (x2 - x1) * (y1 + y2) / 2 + trapz (y2 :: ys) (x2 :: xs) := by
  rw [trapz]

theorem trapz_nonneg : ∀ (ys xs : List ℝ), (∀ y ∈ ys, 0 ≤ y) →
    List.Pairwise (· ≤ ·) xs → 0 ≤ trapz ys xs
  | [], xs, _, _ => by simp [trapz]
  | [y], xs, _, _ => by simp [trapz]
  | y1 :: y2 :: ys, [], _, _ => by simp [trapz]
  | y1 :: y2 :: ys, [x], _, _ => by simp [trapz]
  | y1 :: y2 :: ys, x1 :: x2 :: xs, hy, hx => by
    have h12 : x1 ≤ x2 := (List.pairwise_cons.mp hx).1 x2 (List.mem_cons_self x2 xs)
    have hy1 : 0 ≤ y1 := hy y1 (by simp)
    have hy2 : 0 ≤ y2 := hy y2 (by simp)
    have ih : 0 ≤ trapz (y2 :: ys) (x2 :: xs) :=
      trapz_nonneg (y2 :: ys) (x2 :: xs)
        (fun y hm => hy y (List.mem_cons_of_mem y1 hm))
        (List.pairwise_cons.mp hx).2
    have hterm : 0 ≤ (x2 - x1) * (y1 + y2) / 2 :=
      div_nonneg (mul_nonneg (by linarith) (by linarith)) (by norm_num)
    rw [trapz_cons2]
    linarith

theorem validPairs_isSome (t : Table) (i r dt : ℝ) :
    ∀ p ∈ validPairs t i r dt, p.1.isSome := by
  intro p hp
  exact (List.mem_filter.mp hp).2

theorem filterMap_fst_length :
    ∀ l : List (Option ℝ × ℝ), (∀ p ∈ l, p.1.isSome) →
      (l.filterMap Prod.fst).length = l.length
  | [], _ => rfl
  | p :: l, h => by
    obtain ⟨v, hv⟩ := Option.isSome_iff_exists.mp (h p (List.mem_cons_self p l))
    simp only [List.filterMap_cons, hv, List.length_cons]
    rw [filterMap_fst_length l (fun q hq => h q (List.mem_cons_of_mem p hq))]

theorem cleanedCurrent_length (t : Table) (i r dt : ℝ) :
    (cleanedCurrent t i r dt).length = (validPairs t i r dt).length :=
  filterMap_fst_length _ (validPairs_isSome t i r dt)

theorem cleanedTime_length (t : Table) (i r dt : ℝ) :
    (cleanedTime t i r dt).length = (validPairs t i r dt).length :=
  List.length_map _ _

theorem currentSeries_length (t : Table) (i r : ℝ) :
    (currentSeries t i r).length = t.length := by
  simp [currentSeries, column]

theorem timeArray_length (n : ℕ) (dt : ℝ) : (timeArray n dt).length = n := by
  simp only [timeArray, List.length_map, List.length_range]

theorem timeArray_pairwise (n : ℕ) (dt : ℝ) (h : 0 ≤ dt) :
    List.Pairwise (· ≤ ·) (timeArray n dt) := by
  simp only [timeArray]
  exact List.Pairwise.map _
    (fun a b (hab : a < b) =>
      mul_le_mul_of_nonneg_right (by exact_mod_cast hab.le) h)
    (List.pairwise_lt_range n)

theorem cleanedTime_sublist (t : Table) (i r dt : ℝ) :
    List.Sublist (cleanedTime t i r dt) (timeArray t.length dt) := by
  have h1 : List.Sublist (validPairs t i r dt)
      ((currentSeries t i r).zip (timeArray t.length dt)) :=
    List.filter_sublist _
  have h2 := h1.map Prod.snd
  rw [List.map_snd_zip _ _
    (le_of_eq (by rw [currentSeries_length, timeArray_length]))] at h2
  exact h2

theorem cleanedTime_pairwise (t : Table) (i r dt : ℝ) (h : 0 ≤ dt) :
    List.Pairwise (· ≤ ·) (cleanedTime t i r dt) :=
  List.Pairwise.sublist (cleanedTime_sublist t i r dt)
    (timeArray_pairwise t.length dt h)

/-- **C3.** The dual-polarity combiner equals
`sqrt(max(0,a) * max(0,b))` for all real inputs, is commutative, and is
idempotent on non-negative inputs. -/
theorem combine_comm_idem (a b : ℝ) :
    combineEfficiencies a b = Real.sqrt (max 0 a * max 0 b) ∧
    combineEfficiencies a b = combineEfficiencies b a ∧
    (0 ≤ a → combineEfficiencies a a = a) := by
  refine ⟨rfl, by rw [combineEfficiencies, combineEfficiencies, mul_comm], ?_⟩
  intro ha
  rw [combineEfficiencies, max_eq_right ha, Real.sqrt_mul_self ha]

/-- Witness for C3 at the concrete inputs a = 2, b = 3. -/
theorem combine_comm_idem_witness :
    combineEfficiencies 2 3 = Real.sqrt (max 0 2 * max 0 3) ∧
    combineEfficiencies 2 3 = combineEfficiencies 3 2 ∧
    combineEfficiencies 2 2 = 2 :=
  ⟨(combine_comm_idem 2 3).1, (combine_comm_idem 2 3).2.1,
    (combine_comm_idem 2 3).2.2 (by norm_num)⟩

/-- **C4.** The theoretical post-processing returns per-polarity
efficiencies `sqrt(max 0 e_z)` and `sqrt(max 0 e_f)`, and a finished
efficiency equal to the nested geometric mean
`sqrt(sqrt(max 0 e_z) * sqrt(max 0 e_f))`, which is the fourth root
`(max 0 e_z * max 0 e_f) ^ (1/4)`. -/
theorem theoretical_fourth_root (e_z e_f : ℝ) :
    (theoPostprocess e_z e_f).1 = Real.sqrt (max 0 e_z) ∧
    (theoPostprocess e_z e_f).2.1 = Real.sqrt (max 0 e_f) ∧
    (theoPostprocess e_z e_f).2.2 =
      Real.sqrt (Real.sqrt (max 0 e_z) * Real.sqrt (max 0 e_f)) ∧
    (theoPostprocess e_z e_f).2.2 =
      (max 0 e_z * max 0 e_f) ^ ((1 : ℝ) / 4) := by
  have hz : (0 : ℝ) ≤ max 0 e_z := le_max_left _ _
  have hf : (0 : ℝ) ≤ max 0 e_f := le_max_left _ _
  have hcond : 0 ≤ Real.sqrt (max 0 e_z) * 100 ∧ 0 ≤ Real.sqrt (max 0 e_f) * 100 :=
    ⟨by positivity, by positivity⟩
  have harg : Real.sqrt (max 0 e_z) * 100 * (Real.sqrt (max 0 e_f) * 100) / 10000 =
      Real.sqrt (max 0 e_z) * Real.sqrt (max 0 e_f) := by ring
  refine ⟨by simp [theoPostprocess], by simp [theoPostprocess], ?_, ?_⟩
  · simp only [theoPostprocess, if_pos hcond, harg]
  · simp only [theoPostprocess, if_pos hcond, harg]
    rw [← Real.sqrt_mul hz, show ((1 : ℝ) / 4) = (1 / 2) * (1 / 2) by norm_num,
      Real.rpow_mul (mul_nonneg hz hf)]
    simp [Real.sqrt_eq_rpow]

/-- **C6 counterexample.** The claim asserts
`combine(-1, 4) == combine(0, 4) == 2.0`, but both values are `0.0`:
the clamp turns the first argument into `0`, so the geometric mean is
`sqrt(0 * 4) = 0`, not `2`. -/
theorem combine_clamp_counterexample :
    combineEfficiencies (-1) 4 = 0 ∧ combineEfficiencies (-1) 4 ≠ 2 := by
  have h : combineEfficiencies (-1) 4 = 0 := by
    rw [combineEfficiencies, max_eq_left (by norm_num), zero_mul, Real.sqrt_zero]
  exact ⟨h, by rw [h]; norm_num⟩

/-- **C6 amended.** The combiner clamps negative inputs before the
geometric mean, so `combine(-1, 4) == combine(0, 4)`, and both equal `0.0`. -/
theorem combine_clamp_amended :
    combineEfficiencies (-1) 4 = combineEfficiencies 0 4 ∧
    combineEfficiencies (-1) 4 = 0 := by
  constructor
  · rw [combineEfficiencies, combineEfficiencies,
      max_eq_left (by norm_num : (-1:ℝ) ≤ 0), max_self]
  · rw [combineEfficiencies, max_eq_left (by norm_num), zero_mul, Real.sqrt_zero]

end Motor

namespace Motor

theorem cleanedCurrent_nil (i r dt : ℝ) : cleanedCurrent [] i r dt = [] := rfl

/-- **C1.** For every run whose (truncated) sample table has at least 3
columns and at least 2 valid AIN2 samples, `calculate_simple_efficiency`
succeeds, its output energy is the trapezoidal integral of
`current^2 * r_load` over the reconstructed time array, its input energy is
`power_input * (valid_sample_count / sampling_freq)`, its efficiency is
`output_energy / input_energy` when the input energy is positive and exactly
`0.0` otherwise; with the well-formed parameter domain (`r_load >= 0`,
`sampling_freq > 0`) the efficiency is therefore always nonnegative. -/
theorem verification_simple_efficiency (t : Table)
    (reference_v initial_v r_load power_input sampling_freq : ℝ) (pts : Option ℤ)
    (hc : 3 ≤ ncols (truncate t pts))
    (hn : 2 ≤ (cleanedCurrent (truncate t pts) initial_v reference_v
      (1 / sampling_freq)).length)
    (hr : 0 ≤ r_load) (hf : 0 < sampling_freq) :
    ∃ res : SimpleResult,
      calculate_simple_efficiency t reference_v initial_v r_load power_input
          sampling_freq pts = some res ∧
      res.output_energy =
        trapz ((cleanedCurrent (truncate t pts) initial_v reference_v
            (1 / sampling_freq)).map (fun i => i ^ 2 * r_load))
          (cleanedTime (truncate t pts) initial_v reference_v (1 / sampling_freq)) ∧
      res.input_energy = power_input *
        ((cleanedCurrent (truncate t pts) initial_v reference_v
            (1 / sampling_freq)).length / sampling_freq) ∧
      (0 < res.input_energy → res.efficiency = res.output_energy / res.input_energy) ∧
      (res.input_energy ≤ 0 → res.efficiency = 0) ∧
      0 ≤ res.efficiency := by
  have hdt : 0 ≤ 1 / sampling_freq := by positivity
  have hne : truncate t pts ≠ [] := by
    intro h
    rw [h, cleanedCurrent_nil] at hn
    simp at hn
  have hlen : ((cleanedTime (truncate t pts) initial_v reference_v
      (1 / sampling_freq)).length : ℝ) =
      ((cleanedCurrent (truncate t pts) initial_v reference_v
        (1 / sampling_freq)).length : ℝ) := by
    rw [cleanedTime_length, cleanedCurrent_length]
  have hnnil : cleanedCurrent (truncate t pts) initial_v reference_v
      (1 / sampling_freq) ≠ [] := by
    intro h
    rw [h] at hn
    simp at hn
  have hoe : 0 ≤ trapz ((cleanedCurrent (truncate t pts) initial_v reference_v
      (1 / sampling_freq)).map (fun i => i ^ 2 * r_load))
      (cleanedTime (truncate t pts) initial_v reference_v (1 / sampling_freq)) := by
    apply trapz_nonneg
    · intro y hy
      obtain ⟨i, _, rfl⟩ := List.mem_map.mp hy
      exact mul_nonneg (sq_nonneg i) hr
    · exact cleanedTime_pairwise _ _ _ _ hdt
  rw [calculate_simple_efficiency]
  simp only [if_neg (by push_neg; exact ⟨hne, by omega⟩ :
      ¬(truncate t pts = [] ∨ ncols (truncate t pts) < 3)),
    if_neg hnnil, if_neg (by omega : ¬(cleanedCurrent (truncate t pts) initial_v
      reference_v (1 / sampling_freq)).length < 2)]
  refine ⟨_, rfl, rfl, ?_, ?_, ?_, ?_⟩
  · rw [hlen, mul_one_div]
  · intro h
    rw [if_pos h]
  · intro h
    rw [if_neg (not_lt.mpr h)]
  · split
    · next h =>
      exact div_nonneg hoe (le_of_lt h)
    · exact le_refl 0

/-- Witness for C1: a 3-row, 3-column table of constant parseable samples. -/
theorem verification_simple_efficiency_witness :
    (calculate_simple_efficiency
      [[some 0, some 0, some 1], [some 0, some 0, some 1], [some 0, some 0, some 1]]
      1 0 2 1 1 none).isSome := by
  obtain ⟨res, hres, -⟩ := verification_simple_efficiency
    [[some 0, some 0, some 1], [some 0, some 0, some 1], [some 0, some 0, some 1]]
    1 0 2 1 1 none
    (by norm_num [ncols, truncate])
    (by norm_num [cleanedCurrent, validPairs, currentSeries, column, timeArray,
      truncate, List.range_succ, List.filterMap_cons])
    (by norm_num) (by norm_num)
  rw [hres]
  rfl

theorem zipTimeFilter (dt : ℝ) :
    ∀ (as : List (Option ℝ)) (s : ℕ),
      ((as.zip ((List.range' s as.length).map (fun k : ℕ => (k : ℝ) * dt))).filter
        (fun p => p.1.isSome)).map Prod.snd =
      (((List.range' s as.length).zip as).filter (fun p => p.2.isSome)).map
        (fun p => ((p.1 : ℕ) : ℝ) * dt)
  | [], _ => rfl
  | a :: as, s => by
    rw [List.length_cons, List.range'_succ]
    cases a with
    | none => simpa using zipTimeFilter dt as (s + 1)
    | some v => simpa using zipTimeFilter dt as (s + 1)

theorem cleanedTime_eq_validRowIdx (t : Table) (i r dt : ℝ) :
    cleanedTime t i r dt = (validRowIdx t).map (fun j : ℕ => (j : ℝ) * dt) := by
  have hlen : t.length = (currentSeries t i r).length :=
    (currentSeries_length t i r).symm
  rw [cleanedTime, validPairs, timeArray, hlen, List.range_eq_range',
    zipTimeFilter dt (currentSeries t i r) 0]
  rw [validRowIdx, List.enum_eq_zip_range, List.map_map]
  rw [← List.range_eq_range', currentSeries, List.length_map,
    List.zip_map_right, List.filter_map, List.map_map]
  simp [Function.comp_def, Option.isSome_map]

/-- **C2 counterexample.** The claim says the time paired with the k-th
surviving sample is `k / sampling_freq` over the *filtered* index space, so
for a 3-row table whose middle AIN2 cell is unparseable (and
`sampling_freq = 1`) it predicts times `[0, 1]`; the code instead keeps the
synthetic times of the surviving *original* row indices, giving `[0, 2]`. -/
theorem time_reconstruction_counterexample :
    (calculate_simple_efficiency
        [[some 5, some 0, some 1], [some 7, some 0, none], [some 9, some 0, some 1]]
        1 0 1 1 1 none).map (fun res => res.plot_data.time) = some [0, 2] ∧
    ([(0 : ℝ), 2] : List ℝ) ≠ [0, 1] := by
  constructor
  · rw [calculate_simple_efficiency]
    norm_num [truncate, ncols, cleanedCurrent, cleanedTime, validPairs,
      currentSeries, column, timeArray, List.range_succ, List.filterMap_cons]
    exact ⟨_, ⟨by simp, by simp, rfl⟩, rfl⟩
  · norm_num

/-- **C2 amended.** Time is synthetic (`index * (1/sampling_freq)`) but over
the *unfiltered* row index space: the time paired with each surviving sample
is its original row index divided by the sampling frequency (so consecutive
surviving samples can be separated by more than `1/sampling_freq` when rows
are dropped), and neither the time series nor the current series reads
column 0 — they depend only on the row count and column 2. -/
theorem time_reconstruction_amended (t t2 : Table)
    (initial_v reference_v sampling_freq : ℝ)
    (hlen : t.length = t2.length) (hcol : column t 2 = column t2 2) :
    cleanedTime t initial_v reference_v (1 / sampling_freq) =
      (validRowIdx t).map (fun j : ℕ => (j : ℝ) * (1 / sampling_freq)) ∧
    cleanedTime t2 initial_v reference_v (1 / sampling_freq) =
      cleanedTime t initial_v reference_v (1 / sampling_freq) ∧
    cleanedCurrent t2 initial_v reference_v (1 / sampling_freq) =
      cleanedCurrent t initial_v reference_v (1 / sampling_freq) := by
  refine ⟨cleanedTime_eq_validRowIdx t initial_v reference_v (1 / sampling_freq),
    ?_, ?_⟩
  · rw [cleanedTime, cleanedTime, validPairs, validPairs, currentSeries,
      currentSeries, hcol, hlen]
  · rw [cleanedCurrent, cleanedCurrent, validPairs, validPairs, currentSeries,
      currentSeries, hcol, hlen]

/-- Witness for C2 (amended): two 3-row tables differing in column 0. -/
theorem time_reconstruction_amended_witness :
    cleanedTime [[some 5, some 0, some 1], [some 7, some 0, none],
        [some 9, some 0, some 1]] 0 1 (1 / 1) =
      (validRowIdx [[some 5, some 0, some 1], [some 7, some 0, none],
        [some 9, some 0, some 1]]).map (fun j : ℕ => (j : ℝ) * (1 / 1)) ∧
    cleanedTime [[none, some 3, some 1], [some 0, some 3, none],
        [some 1, some 3, some 1]] 0 1 (1 / 1) =
      cleanedTime [[some 5, some 0, some 1], [some 7, some 0, none],
        [some 9, some 0, some 1]] 0 1 (1 / 1) ∧
    cleanedCurrent [[none, some 3, some 1], [some 0, some 3, none],
        [some 1, some 3, some 1]] 0 1 (1 / 1) =
      cleanedCurrent [[some 5, some 0, some 1], [some 7, some 0, none],
        [some 9, some 0, some 1]] 0 1 (1 / 1) :=
  time_reconstruction_amended _ _ 0 1 1 rfl rfl

/-- **C5 counterexample.** For the 10-row constant-1A table with
`r_load = 2`, `sampling_freq = 100`, `power_input = 1`, the code returns
output energy `0.18 J` and efficiency `1.8` (the trapezoidal integral spans
only the 9 intervals between the 10 samples), not the claimed `0.2 J` and
`2.0`. -/
theorem constant_current_scenario_counterexample :
    (calculate_simple_efficiency
        [[some 0, some 0, some 1], [some 0, some 0, some 1], [some 0, some 0, some 1],
         [some 0, some 0, some 1], [some 0, some 0, some 1], [some 0, some 0, some 1],
         [some 0, some 0, some 1], [some 0, some 0, some 1], [some 0, some 0, some 1],
         [some 0, some 0, some 1]]
        1 0 2 1 100 none).map
      (fun res => (res.output_energy, res.input_energy, res.efficiency)) =
      some (9 / 50, 1 / 10, 9 / 5) ∧
    ¬ ((9 : ℝ) / 50 = 1 / 5 ∧ (9 : ℝ) / 5 = 2) := by
  constructor
  · rw [calculate_simple_efficiency]
    norm_num [truncate, ncols, cleanedCurrent, cleanedTime, validPairs,
      currentSeries, column, timeArray, List.range_succ, List.filterMap_cons,
      trapz]
    exact ⟨_, ⟨by simp, by simp, rfl⟩, by norm_num [trapz], by norm_num,
      by norm_num [trapz]⟩
  · norm_num

/-- **C5 amended.** Same scenario: output energy `9/50 = 0.18 J` (the
trapezoid covers `sample_count - 1` intervals), input energy
`1/10 = 0.1 J`, efficiency `9/5 = 1.8`. -/
theorem constant_current_scenario_amended :
    ∃ res : SimpleResult,
      calculate_simple_efficiency
        [[some 0, some 0, some 1], [some 0, some 0, some 1], [some 0, some 0, some 1],
         [some 0, some 0, some 1], [some 0, some 0, some 1], [some 0, some 0, some 1],
         [some 0, some 0, some 1], [some 0, some 0, some 1], [some 0, some 0, some 1],
         [some 0, some 0, some 1]]
        1 0 2 1 100 none = some res ∧
      res.output_energy = 9 / 50 ∧ res.input_energy = 1 / 10 ∧
      res.efficiency = 9 / 5 := by
  rw [calculate_simple_efficiency]
  norm_num [truncate, ncols, cleanedCurrent, cleanedTime, validPairs,
    currentSeries, column, timeArray, List.range_succ, List.filterMap_cons, trapz]
  exact ⟨_, ⟨by simp, by simp, rfl⟩, by norm_num [trapz], by norm_num,
    by norm_num [trapz]⟩

/-- **C7.** For every configuration and natural index `i`:
if `i < len(variable_params)`, `get_experiment_params` returns the layered
dictionary (`common_params` overridden by `fixed_params` overridden by
`variable_params[i]`, later layers winning key-for-key); if
`i >= len(variable_params)` it fails with an `IndexError`. -/
theorem get_experiment_params_layering (cfg : ExperimentConfig) (i : ℕ) :
    (i < cfg.variable_params.length →
      get_experiment_params cfg i =
        Except.ok ((cfg.common_params.update cfg.fixed_params).update
          (cfg.variable_params.getD i emptyParams)) ∧
      ∀ k, ((cfg.common_params.update cfg.fixed_params).update
          (cfg.variable_params.getD i emptyParams)) k =
        ((cfg.variable_params.getD i emptyParams) k).or
          ((cfg.fixed_params k).or (cfg.common_params k))) ∧
    (cfg.variable_params.length ≤ i →
      ∃ msg, get_experiment_params cfg i = Except.error msg) := by
  constructor
  · intro h
    constructor
    · rw [get_experiment_params,
        if_neg (by exact_mod_cast not_le.mpr h), pyListGet,
        if_pos (by positivity : (0:ℤ) ≤ (i:ℤ))]
      rw [Int.toNat_natCast, List.get?_eq_get h]
      simp [List.getD_eq_getElem?_getD, List.getElem?_eq_getElem h]
    · intro k
      rw [Params.update, Params.update]
      cases hv : (cfg.variable_params.getD i emptyParams) k with
      | some v => simp [Option.or]
      | none =>
        cases hf : cfg.fixed_params k with
        | some w => simp [Option.or]
        | none => simp [Option.or]
  · intro h
    exact ⟨_, by rw [get_experiment_params, if_pos (by exact_mod_cast h)]⟩

/-- Witness for C7: a one-level configuration, in-range index 0 and
out-of-range index 5. -/
theorem get_experiment_params_layering_witness :
    (get_experiment_params
        ⟨none, fun _ => some 12, [fun k => if k = "r_load" then some 10 else none],
          fun _ => some 1, false⟩ 0 =
      Except.ok ((Params.update (fun _ => some 1) (fun _ => some 12)).update
        ([fun k : String => if k = "r_load" then some 10 else none].getD 0 emptyParams)) ∧
     ∀ k, ((Params.update (fun _ => some 1) (fun _ => some 12)).update
        ([fun k : String => if k = "r_load" then some 10 else none].getD 0 emptyParams)) k =
       (([fun k : String => if k = "r_load" then some 10 else none].getD 0 emptyParams) k).or
         (((fun _ : String => some (12:ℝ)) k).or ((fun _ : String => some (1:ℝ)) k))) ∧
    (∃ msg, get_experiment_params
        ⟨none, fun _ => some 12, [fun k => if k = "r_load" then some 10 else none],
          fun _ => some 1, false⟩ 5 = Except.error msg) :=
  ⟨(get_experiment_params_layering
      ⟨none, fun _ => some 12, [fun k => if k = "r_load" then some 10 else none],
        fun _ => some 1, false⟩ 0).1 (by norm_num),
   (get_experiment_params_layering
      ⟨none, fun _ => some 12, [fun k => if k = "r_load" then some 10 else none],
        fun _ => some 1, false⟩ 5).2 (by norm_num)⟩

/-- **C10.** For a non-empty `variable_params` and a negative index `i` with
`-len <= i < 0`, `get_experiment_params` does not raise: Python subscripting
resolves `variable_params[i]` from the back (`i = -1` is the last level) and
the layered parameter set is returned. -/
theorem negative_index_resolution (cfg : ExperimentConfig) (i : ℤ)
    (h1 : -(cfg.variable_params.length : ℤ) ≤ i) (h2 : i < 0) :
    get_experiment_params cfg i =
      Except.ok ((cfg.common_params.update cfg.fixed_params).update
        (cfg.variable_params.getD (i + cfg.variable_params.length).toNat
          emptyParams)) := by
  have hidx : (i + cfg.variable_params.length).toNat < cfg.variable_params.length := by
    omega
  rw [get_experiment_params, if_neg (by omega), pyListGet, if_neg (by omega),
    if_pos (by omega : (0:ℤ) ≤ i + cfg.variable_params.length),
    List.get?_eq_get hidx]
  simp [List.getD_eq_getElem?_getD, List.getElem?_eq_getElem hidx]

/-- Witness for C10: a two-level configuration indexed with `-1`. -/
theorem negative_index_resolution_witness :
    get_experiment_params
        ⟨none, fun _ => none, [fun _ => some 3, fun _ => some 4], fun _ => none,
          false⟩ (-1) =
      Except.ok ((Params.update (fun _ => none) (fun _ => none)).update
        ([fun _ : String => some (3:ℝ), fun _ : String => some (4:ℝ)].getD
          ((-1) + (([fun _ : String => some (3:ℝ), fun _ : String => some (4:ℝ)] :
            List Params).length : ℤ)).toNat emptyParams)) :=
  negative_index_resolution
    ⟨none, fun _ => none, [fun _ => some 3, fun _ => some 4], fun _ => none, false⟩
    (-1) (by norm_num) (by norm_num)

theorem verBranch_default (df : Table) (rv iv rl pi dt : ℝ)
    (h : (cleanedCurrent df iv rv dt).length < 2) :
    verBranch df rv iv rl pi dt = (0, emptyPlot) := by
  rw [verBranch]
  by_cases h1 : 2 < ncols df
  · rw [if_pos h1]
    by_cases h2 : cleanedCurrent df iv rv dt = []
    · rw [if_pos h2]
    · rw [if_neg h2, if_pos h]
  · rw [if_neg h1]

theorem theoBranch_default (df : Table) (rv iv rl dv dt : ℝ)
    (h : (theoOutCleaned df iv rv dt).length < 2) :
    theoBranch df rv iv rl dv dt = (0, emptyTheoPlot) := by
  rw [theoBranch]
  by_cases h1 : 7 < ncols df
  · rw [if_pos h1]
    by_cases h2 : theoOutCleaned df iv rv dt = []
    · rw [if_pos h2]
    · rw [if_neg h2, if_pos h]
  · rw [if_neg h1]

/-- **C8.** Whenever the truncated zheng table is non-empty, the unified
computation returns a defined result, and any (polarity, methodology)
branch with fewer than 2 valid aligned samples keeps its zero-initialized
default (efficiency `0.0`, empty plot arrays) instead of aborting. -/
theorem insufficient_samples_default (tz tf : Table)
    (rv iv rl dv pi sf : ℝ) (pz pf : Option ℤ)
    (hz : truncate tz pz ≠ []) :
    ∃ res : UnifiedResults,
      calculate_unified_efficiencies tz tf rv iv rl dv pi sf pz pf = some res ∧
      ((cleanedCurrent (truncate tz pz) iv rv (1 / sf)).length < 2 →
        res.verification.zheng.efficiency = 0 ∧
        res.verification.zheng.plot_data = emptyPlot) ∧
      ((theoOutCleaned (truncate tz pz) iv rv (1 / sf)).length < 2 →
        res.theoretical.zheng.efficiency = 0 ∧
        res.theoretical.zheng.plot_data = emptyTheoPlot) ∧
      ((cleanedCurrent (truncate tf pf) iv rv (1 / sf)).length < 2 →
        res.verification.fan.efficiency = 0 ∧
        res.verification.fan.plot_data = emptyPlot) ∧
      ((theoOutCleaned (truncate tf pf) iv rv (1 / sf)).length < 2 →
        res.theoretical.fan.efficiency = 0 ∧
        res.theoretical.fan.plot_data = emptyTheoPlot) := by
  rw [calculate_unified_efficiencies]
  rw [if_neg hz]
  refine ⟨_, rfl, ?_, ?_, ?_, ?_⟩
  · intro h
    rw [verBranch_default _ _ _ _ _ _ h]
    exact ⟨rfl, rfl⟩
  · intro h
    rw [theoBranch_default _ _ _ _ _ _ h]
    refine ⟨?_, rfl⟩
    simp [theoPostprocess]
  · intro h
    by_cases hf : truncate tf pf = []
    · refine ⟨?_, ?_⟩ <;> simp [hf]
    · rw [verBranch_default _ _ _ _ _ _ h]
      refine ⟨?_, ?_⟩ <;> simp [hf]
  · intro h
    by_cases hf : truncate tf pf = []
    · refine ⟨?_, ?_⟩ <;> simp [hf, theoPostprocess]
    · rw [theoBranch_default _ _ _ _ _ _ h]
      refine ⟨?_, ?_⟩ <;> simp [hf, theoPostprocess]

/-- Witness for C8: a 1-row, 1-column zheng table and an empty fan table. -/
theorem insufficient_samples_default_witness :
    (calculate_unified_efficiencies [[some 1]] [] 1 1 1 1 1 1 none none).isSome := by
  obtain ⟨res, hres, -⟩ :=
    insufficient_samples_default [[some 1]] [] 1 1 1 1 1 1 none none
      (by simp [truncate])
  rw [hres]
  rfl

/-- **C9.** The two polarity files are treated asymmetrically: an empty
(after truncation) zheng table makes the whole call return `none`, while an
empty fan table still yields a results structure whose fan fields keep
their zero-initialized defaults, the combined efficiencies being computed
from those zeros (hence both equal `0`). -/
theorem polarity_asymmetry (tz tf : Table)
    (rv iv rl dv pi sf : ℝ) (pz pf : Option ℤ) :
    (truncate tz pz = [] →
      calculate_unified_efficiencies tz tf rv iv rl dv pi sf pz pf = none) ∧
    (truncate tz pz ≠ [] → truncate tf pf = [] →
      ∃ res : UnifiedResults,
        calculate_unified_efficiencies tz tf rv iv rl dv pi sf pz pf = some res ∧
        res.verification.fan.efficiency = 0 ∧
        res.verification.fan.stats = [] ∧
        res.verification.fan.plot_data = emptyPlot ∧
        res.theoretical.fan.efficiency = 0 ∧
        res.theoretical.fan.stats = [] ∧
        res.theoretical.fan.plot_data = emptyTheoPlot ∧
        res.verification.finished_efficiency =
          combineEfficiencies res.verification.zheng.efficiency 0 ∧
        res.verification.finished_efficiency = 0 ∧
        res.theoretical.finished_efficiency = 0) := by
  constructor
  · intro h
    rw [calculate_unified_efficiencies, if_pos h]
  · intro hz hf
    rw [calculate_unified_efficiencies, if_neg hz]
    refine ⟨_, rfl, ?_, ?_, ?_, ?_, ?_, ?_, ?_, ?_, ?_⟩
    · simp [hf]
    · simp [hf]
    · simp [hf]
    · simp [hf, theoPostprocess]
    · simp [hf]
    · simp [hf]
    · simp [hf]
    · simp [hf, combineEfficiencies]
    · simp [hf, theoPostprocess]

/-- Witness for C9: both orders of an empty and a non-empty table. -/
theorem polarity_asymmetry_witness :
    calculate_unified_efficiencies [] [[some 1]] 1 1 1 1 1 1 none none = none ∧
    (calculate_unified_efficiencies [[some 1]] [] 1 1 1 1 1 1 none none).isSome := by
  constructor
  · exact (polarity_asymmetry [] [[some 1]] 1 1 1 1 1 1 none none).1 rfl
  · obtain ⟨res, hres, -⟩ :=
      (polarity_asymmetry [[some 1]] [] 1 1 1 1 1 1 none none).2
        (by simp [truncate]) rfl
    rw [hres]
    rfl

end Motor
